import Mathlib

/-!
Verification of the USB transfer-batch lifecycle of the libusbhost layer
(`uspace/lib/usbhost/src/usb_transfer_batch.c`).

The five batch operations (`create`, `init`, `reset_toggle`, `destroy`,
`finish`, `abort`) are embedded as explicit state transformers over a
system state `St` that carries the per-endpoint reference counts, a trace
of observable events (reference operations, callback invocations, debug
log lines, memory release, bus toggle-reset invocations), an allocation
oracle, and a flag recording a NULL-pointer dereference.

The endpoint reference-count operations, the bus operation table and the
bus toggle-reset dispatch live in headers and sources that are not part
of this tree (`endpoint.h`, `bus.h`); those are modelled from the spec,
and each such definition is marked in its doc comment.
-/

/-- Error code EOK: success. -/
def EOK : Int := 0

/-- Error code EAGAIN, used by `usb_transfer_batch_abort` to mark a batch
as cancelled / timed out. The exact numeric value is immaterial to every
property below; what matters is that it is a fixed nonzero code. -/
def EAGAIN : Int := 11

/-- The toggle-reset request carried by a batch: `RESET_NONE`, or reset
the single endpoint's toggle, or the toggle of every endpoint of the
device. Zero-initialization yields `RESET_NONE`. -/
inductive ToggleResetMode where
  | RESET_NONE
  | RESET_ENDPOINT
  | RESET_ALL
  deriving DecidableEq

/-- A USB target: device address plus endpoint number. -/
structure UsbTarget where
  address : Nat
  endpoint : Nat
  deriving DecidableEq

/-- Observable events of the batch lifecycle, in program order. The
debug events correspond to the `usb_log_debug2` lines the C code emits at
the start of finishing, destroying (backend branch) and disposing
(generic branch); `callbackEvt` records an `on_complete` invocation with
its three arguments; `warning` is the `usb_log_warning` on a nonzero
callback status; `freeBatch` is `free(batch)`; `batchDestroyOp` is a call
of the bus's `batch_destroy` override; `busResetToggleOp` is a call of
`bus_reset_toggle` with the passed target and mode. -/
inductive Event where
  | addRef (ep : Nat)
  | delRef (ep : Nat)
  | debugFinishing
  | callbackEvt (ctx : Nat) (error : Int) (size : Nat)
  | warning
  | debugDestroying
  | debugDisposing
  | batchDestroyOp
  | freeBatch
  | debugResetsToggle (all : Bool)
  | busResetToggleOp (target : UsbTarget) (mode : ToggleResetMode)
  deriving DecidableEq

/-- System state: per-endpoint reference counts (endpoints are named by
naturals), the event trace, the allocation oracle (`calloc` succeeds iff
`allocOk`), and whether a NULL pointer has been dereferenced. -/
structure St where
  refcount : Nat → Int
  events : List Event
  allocOk : Bool
  crashed : Bool

/-- Append one event to the trace. -/
def emit (e : Event) (s : St) : St :=
  { s with events := s.events ++ [e] }

/-- The events a state transformer added on top of the starting trace. -/
def newEvents (s s1 : St) : List Event :=
  s1.events.drop s.events.length

/-- Modelled from the spec: `endpoint.h` / the endpoint implementation is
not under src/. Per spec section 4.1, `endpoint_add_ref` atomically
increments the endpoint's reference count and has no failure mode. The
model additionally records the call in the trace. -/
def endpoint_add_ref (ep : Nat) (s : St) : St :=
  { s with
    refcount := fun e => if e = ep then s.refcount e + 1 else s.refcount e,
    events := s.events ++ [Event.addRef ep] }

/-- Modelled from the spec: `endpoint.h` / the endpoint implementation is
not under src/. Per spec section 4.1, `endpoint_del_ref` atomically
decrements the endpoint's reference count; teardown at zero is delegated
to an external backend hook and is outside this model. The call is
recorded in the trace. -/
def endpoint_del_ref (ep : Nat) (s : St) : St :=
  { s with
    refcount := fun e => if e = ep then s.refcount e - 1 else s.refcount e,
    events := s.events ++ [Event.delRef ep] }

/-- The transfer batch structure. Fields follow `usb_transfer_batch_t` as
used by `usb_transfer_batch.c`: the bound endpoint (`NULL` as `none`),
the outcome/error code, the transferred size, the toggle-reset mode, the
USB target, and the completion callback (`NULL` as `none`; modelled as a
pure function from its three arguments to its returned status) with its
opaque context datum. -/
structure Batch where
  ep : Option Nat
  error : Int
  transfered_size : Nat
  toggle_reset_mode : ToggleResetMode
  target : UsbTarget
  on_complete : Option (Nat → Int → Nat → Int)
  on_complete_data : Nat

/-- The batch produced by `calloc(1, sizeof(usb_transfer_batch_t))`: all
fields zero / NULL (`RESET_NONE` is the zero enumerator). -/
def zeroBatch : Batch :=
  { ep := none
    error := 0
    transfered_size := 0
    toggle_reset_mode := ToggleResetMode.RESET_NONE
    target := ⟨0, 0⟩
    on_complete := none
    on_complete_data := 0 }

/-- `calloc` for one batch: a zero-initialized batch on success, NULL
(`none`) on allocation failure; the state's `allocOk` flag is the
allocation oracle. -/
def callocBatch (s : St) : Option Batch :=
  if s.allocOk then some zeroBatch else none

/-- Modelled from the spec: `bus.h` is not under src/. Per spec section
4.2 the bus is a capability set with optional `batch_create` and
`batch_destroy` overrides (`BUS_OPS_LOOKUP` yields NULL when an override
is absent). A `batch_create` override is arbitrary backend code, modelled
as an arbitrary state transformer returning an optional batch; a
`batch_destroy` override's body is backend code outside this tree, so
only its presence is modelled and its invocation is recorded as the
`batchDestroyOp` event. -/
structure BusOps where
  batch_create : Option (Nat → St → St × Option Batch)
  batch_destroy : Bool

/-- Modelled from the spec: `bus.c` is not under src/. Per spec section
4.2, `reset_toggle` is implemented entirely by the backend; the model
records the invocation with the target and mode it was passed and reports
success. -/
def bus_reset_toggle (t : UsbTarget) (m : ToggleResetMode) (s : St) : St × Int :=
  (emit (Event.busResetToggleOp t m) s, EOK)

/-- `usb_transfer_batch_init` (usb_transfer_batch.c, lines 66-71): calls
`endpoint_add_ref(ep)` and then stores `ep` into `batch->ep`. The C code
performs the `add_ref` before touching `batch`, so a NULL `batch` still
acquires the reference and only then crashes on the store `batch->ep =
ep`; the crash is recorded in the `crashed` flag. -/
def usb_transfer_batch_init (batch : Option Batch) (ep : Nat) (s : St) :
    St × Option Batch :=
  let s1 := endpoint_add_ref ep s
  match batch with
  | none => ({ s1 with crashed := true }, none)
  | some b => (s1, some { b with ep := some ep })

/-- `usb_transfer_batch_create` (usb_transfer_batch.c, lines 48-62): look
up the bus's `batch_create` override; without one, `calloc` a batch and
call `init` on it (the C code does not check the allocation result);
with one, return the override's result directly. -/
def usb_transfer_batch_create (bus : BusOps) (ep : Nat) (s : St) :
    St × Option Batch :=
  match bus.batch_create with
  | none => usb_transfer_batch_init (callocBatch s) ep s
  | some bc => bc ep s

/-- `usb_transfer_batch_reset_toggle` (usb_transfer_batch.c, lines
77-89): return `EOK` at once when `batch->error != EOK` or the mode is
`RESET_NONE`; otherwise log which toggles are reset and delegate to
`bus_reset_toggle` with the batch's target and mode. The delegating
branch dereferences `batch->ep` (for `endpoint_get_bus`), so a NULL
endpoint there is a crash. -/
def usb_transfer_batch_reset_toggle (b : Batch) (s : St) : St × Int :=
  if b.error ≠ EOK ∨ b.toggle_reset_mode = ToggleResetMode.RESET_NONE then
    (s, EOK)
  else
    match b.ep with
    | none => ({ s with crashed := true }, EOK)
    | some _ =>
      let s1 := emit
        (Event.debugResetsToggle (b.toggle_reset_mode = ToggleResetMode.RESET_ALL)) s
      bus_reset_toggle b.target b.toggle_reset_mode s1

/-- `usb_transfer_batch_destroy` (usb_transfer_batch.c, lines 95-115):
assert the endpoint is set, release one endpoint reference, then either
log "destroying" and call the bus's `batch_destroy` override, or log
"disposing" and `free` the batch. -/
def usb_transfer_batch_destroy (bus : BusOps) (b : Batch) (s : St) : St :=
  match b.ep with
  | none => { s with crashed := true }
  | some ep =>
    let s1 := endpoint_del_ref ep s
    if bus.batch_destroy then
      emit Event.batchDestroyOp (emit Event.debugDestroying s1)
    else
      emit Event.freeBatch (emit Event.debugDisposing s1)

/-- `usb_transfer_batch_finish` (usb_transfer_batch.c, lines 123-139):
log "finishing"; if a completion callback is registered, invoke it with
(context, error, transferred size) and log a warning when its status is
nonzero; finally call `usb_transfer_batch_destroy`. -/
def usb_transfer_batch_finish (bus : BusOps) (b : Batch) (s : St) : St :=
  match b.ep with
  | none => { s with crashed := true }
  | some _ =>
    let s1 := emit Event.debugFinishing s
    let s2 :=
      match b.on_complete with
      | none => s1
      | some cb =>
        let err := cb b.on_complete_data b.error b.transfered_size
        let s3 := emit
          (Event.callbackEvt b.on_complete_data b.error b.transfered_size) s1
        if err ≠ 0 then emit Event.warning s3 else s3
    usb_transfer_batch_destroy bus b s2

/-- `usb_transfer_batch_abort` (usb_transfer_batch.c, lines 145-152):
assert the endpoint is set, overwrite `batch->error` with `EAGAIN`, and
call `usb_transfer_batch_finish`. -/
def usb_transfer_batch_abort (bus : BusOps) (b : Batch) (s : St) : St :=
  match b.ep with
  | none => { s with crashed := true }
  | some _ => usb_transfer_batch_finish bus { b with error := EAGAIN } s

/-! Trace classifiers. -/

/-- Is this event a completion-callback invocation? -/
def isCallbackEvt : Event → Bool
  | Event.callbackEvt _ _ _ => true
  | _ => false

/-- Is this event one of the two destroy-entry log lines (backend
"destroying" or generic "disposing")? Each run of
`usb_transfer_batch_destroy` emits exactly one of them. -/
def isDestroyLog : Event → Bool
  | Event.debugDestroying => true
  | Event.debugDisposing => true
  | _ => false

/-- Is this event the warning on a failed completion callback? -/
def isWarning : Event → Bool
  | Event.warning => true
  | _ => false

/-- Is this event an `endpoint_add_ref` call? -/
def isAddRef : Event → Bool
  | Event.addRef _ => true
  | _ => false

/-- Is this event an `endpoint_del_ref` call? -/
def isDelRef : Event → Bool
  | Event.delRef _ => true
  | _ => false

/-- Is this event a memory release (backend `batch_destroy` or generic
`free`)? -/
def isRelease : Event → Bool
  | Event.batchDestroyOp => true
  | Event.freeBatch => true
  | _ => false

/-- Is this event an invocation of the bus's `reset_toggle` operation? -/
def isBusResetToggle : Event → Bool
  | Event.busResetToggleOp _ _ => true
  | _ => false

/-! Scenario combinators for the reference-balance property. -/

/-- Create `n` batches on endpoint `ep`, collecting them in order. -/
def createBatches (bus : BusOps) (ep : Nat) : Nat → St → St × List (Option Batch)
  | 0, s => (s, [])
  | n + 1, s =>
    let p := usb_transfer_batch_create bus ep s
    let q := createBatches bus ep n p.1
    (q.1, p.2 :: q.2)

/-- Complete one batch: `finish` it (choice `true`) or `abort` it
(choice `false`). -/
def completeOne (bus : BusOps) (c : Bool) (b : Batch) (s : St) : St :=
  if c then usb_transfer_batch_finish bus b s else usb_transfer_batch_abort bus b s

/-- Complete a list of created batches, one completion choice each; a
failed creation (`none`) has nothing to complete. -/
def completeBatches (bus : BusOps) : List Bool → List (Option Batch) → St → St
  | c :: cs, some b :: bs, s => completeBatches bus cs bs (completeOne bus c b s)
  | _ :: cs, none :: bs, s => completeBatches bus cs bs s
  | _, _, s => s

/-- The full scenario: create one batch per completion choice, then
complete them all in order. -/
def refBalanceRun (bus : BusOps) (ep : Nat) (choices : List Bool) (s : St) : St :=
  completeBatches bus choices (createBatches bus ep choices.length s).2
    (createBatches bus ep choices.length s).1

/-! Concrete instances used by witnesses and counterexamples. -/

/-- A bus with no overrides: the generic paths apply. -/
def genBus : BusOps := { batch_create := none, batch_destroy := false }

/-- A bus whose `batch_create` override returns NULL without doing
anything, in particular without acquiring any endpoint reference. -/
def noRefBus : BusOps :=
  { batch_create := some fun _ s => (s, none), batch_destroy := false }

/-- A starting state: every endpoint holds one reference, empty trace,
allocation succeeding. -/
def st0 : St :=
  { refcount := fun _ => 1, events := [], allocOk := true, crashed := false }

/-- A starting state in which allocation fails. -/
def stNoAlloc : St :=
  { refcount := fun _ => 1, events := [], allocOk := false, crashed := false }

/-! Abbreviations for the reference-count updates and the traces the
batch operations leave behind; each is established against the operation
itself by a characterization lemma below. -/

/-- Increment a reference-count map at one endpoint. -/
def incAt (ep : Nat) (f : Nat → Int) : Nat → Int :=
  fun e => if e = ep then f e + 1 else f e

/-- Decrement a reference-count map at one endpoint. -/
def decAt (ep : Nat) (f : Nat → Int) : Nat → Int :=
  fun e => if e = ep then f e - 1 else f e

/-- The events one `usb_transfer_batch_destroy` run appends for a batch
bound to `ep`: one `delRef`, then the release branch taken. -/
def destroyTrail (bus : BusOps) (ep : Nat) : List Event :=
  Event.delRef ep ::
    (if bus.batch_destroy then [Event.debugDestroying, Event.batchDestroyOp]
     else [Event.debugDisposing, Event.freeBatch])

/-- The callback-related events `usb_transfer_batch_finish` appends:
nothing without a registered callback; otherwise the invocation record,
followed by the warning exactly when the callback status is nonzero. -/
def callbackTrail (b : Batch) : List Event :=
  match b.on_complete with
  | none => []
  | some cb =>
    Event.callbackEvt b.on_complete_data b.error b.transfered_size ::
      (if cb b.on_complete_data b.error b.transfered_size ≠ 0 then [Event.warning]
       else [])

/-- The events one `usb_transfer_batch_finish` run appends for a batch
bound to `ep`. -/
def finishTrail (bus : BusOps) (b : Batch) (ep : Nat) : List Event :=
  Event.debugFinishing :: (callbackTrail b ++ destroyTrail bus ep)

/-! Concrete batches used by witnesses and counterexamples. -/

/-- A completion callback that always reports status 0. -/
def cbZero : Nat → Int → Nat → Int := fun _ _ _ => 0

/-- A completion callback that always reports status 1. -/
def cbOne : Nat → Int → Nat → Int := fun _ _ _ => 1

/-- A completed batch with a registered (failing) callback. -/
def batchW : Batch :=
  { ep := some 0, error := 0, transfered_size := 3,
    toggle_reset_mode := ToggleResetMode.RESET_NONE, target := ⟨1, 2⟩,
    on_complete := some cbOne, on_complete_data := 7 }

/-- A completed batch with no registered callback. -/
def batchNoCb : Batch :=
  { ep := some 0, error := 0, transfered_size := 3,
    toggle_reset_mode := ToggleResetMode.RESET_NONE, target := ⟨1, 2⟩,
    on_complete := none, on_complete_data := 0 }

/-- A batch with a previously recorded error and a nonzero transferred
size, carrying a recording callback. -/
def batchPartial : Batch :=
  { ep := some 0, error := 7, transfered_size := 5,
    toggle_reset_mode := ToggleResetMode.RESET_NONE, target := ⟨1, 2⟩,
    on_complete := some cbZero, on_complete_data := 0 }

/-- A batch that failed (STALL-like nonzero error) and requests an
endpoint toggle reset. -/
def batchStall : Batch :=
  { ep := some 0, error := 1, transfered_size := 0,
    toggle_reset_mode := ToggleResetMode.RESET_ENDPOINT, target := ⟨1, 2⟩,
    on_complete := none, on_complete_data := 0 }

/-- An error-free batch requesting a whole-device toggle reset. -/
def batchAllToggle : Batch :=
  { ep := some 0, error := 0, transfered_size := 0,
    toggle_reset_mode := ToggleResetMode.RESET_ALL, target := ⟨1, 2⟩,
    on_complete := none, on_complete_data := 0 }

/-- An error-free batch requesting no toggle reset. -/
def batchNoToggle : Batch :=
  { ep := some 0, error := 0, transfered_size := 0,
    toggle_reset_mode := ToggleResetMode.RESET_NONE, target := ⟨1, 2⟩,
    on_complete := none, on_complete_data := 0 }

/-! Characterization lemmas: each batch operation, on a batch whose
endpoint is set, is the stated reference-count update together with the
stated trace suffix, leaving the allocation oracle and the crash flag
alone. -/

/-- `destroy` on a bound batch: one decrement at the endpoint, the
destroy trail appended, everything else untouched. -/
theorem destroy_eq (bus : BusOps) (b : Batch) (s : St) (ep : Nat)
    (hep : b.ep = some ep) :
    usb_transfer_batch_destroy bus b s =
      { refcount := decAt ep s.refcount, events := s.events ++ destroyTrail bus ep,
        allocOk := s.allocOk, crashed := s.crashed } := by
  cases hbd : bus.batch_destroy <;>
    simp [usb_transfer_batch_destroy, hep, hbd, endpoint_del_ref, emit,
      destroyTrail] <;>
    rfl

/-- `finish` on a bound batch: one decrement at the endpoint, the finish
trail appended, everything else untouched. -/
theorem finish_eq (bus : BusOps) (b : Batch) (s : St) (ep : Nat)
    (hep : b.ep = some ep) :
    usb_transfer_batch_finish bus b s =
      { refcount := decAt ep s.refcount, events := s.events ++ finishTrail bus b ep,
        allocOk := s.allocOk, crashed := s.crashed } := by
  have hd : ∀ s2, usb_transfer_batch_destroy bus b s2 =
      { refcount := decAt ep s2.refcount, events := s2.events ++ destroyTrail bus ep,
        allocOk := s2.allocOk, crashed := s2.crashed } :=
    fun s2 => destroy_eq bus b s2 ep hep
  cases hcb : b.on_complete with
  | none =>
    simp [usb_transfer_batch_finish, hep, hcb, hd, emit, finishTrail, callbackTrail]
  | some cb =>
    by_cases h0 : cb b.on_complete_data b.error b.transfered_size = 0 <;>
      simp [usb_transfer_batch_finish, hep, hcb, h0, hd, emit, finishTrail,
        callbackTrail]

/-- `abort` is `finish` on the batch with its error overwritten by
`EAGAIN` (also in the crash case of an unbound batch, where both sides
only set the crash flag). -/
theorem abort_eq (bus : BusOps) (b : Batch) (s : St) :
    usb_transfer_batch_abort bus b s =
      usb_transfer_batch_finish bus { b with error := EAGAIN } s := by
  cases hb : b.ep <;> simp [usb_transfer_batch_abort, usb_transfer_batch_finish, hb]

/-- `create` without a `batch_create` override and with allocation
succeeding: one increment at the endpoint, one `addRef` event, and the
zero-initialized batch bound to the endpoint. -/
theorem create_generic_eq (bus : BusOps) (ep : Nat) (s : St)
    (hbc : bus.batch_create = none) (ha : s.allocOk = true) :
    usb_transfer_batch_create bus ep s =
      ({ refcount := incAt ep s.refcount, events := s.events ++ [Event.addRef ep],
         allocOk := s.allocOk, crashed := s.crashed },
       some { zeroBatch with ep := some ep }) := by
  simp [usb_transfer_batch_create, hbc, callocBatch, ha, usb_transfer_batch_init,
    endpoint_add_ref]
  rfl

/-- Recover the appended trace of a state transformer from its events
equation. -/
theorem newEvents_of_append (s s1 : St) (l : List Event)
    (h : s1.events = s.events ++ l) : newEvents s s1 = l := by
  rw [newEvents, h, List.drop_left]

/-- Creating `n` batches on `ep` through the generic path: the reference
count at `ep` grows by exactly `n`, allocation stays available, and the
collected batches are `n` copies of the zero-initialized batch bound to
`ep`. -/
theorem createBatches_generic (bus : BusOps) (ep : Nat)
    (hbc : bus.batch_create = none) :
    ∀ (n : Nat) (s : St), s.allocOk = true →
      (createBatches bus ep n s).1.refcount ep = s.refcount ep + n ∧
      (createBatches bus ep n s).1.allocOk = true ∧
      (createBatches bus ep n s).2 =
        List.replicate n (some { zeroBatch with ep := some ep }) := by
  intro n
  induction n with
  | zero =>
    intro s ha
    simp [createBatches, ha]
  | succ n ih =>
    intro s ha
    simp only [createBatches, create_generic_eq bus ep s hbc ha]
    obtain ⟨h1, h2, h3⟩ := ih
      { refcount := incAt ep s.refcount, events := s.events ++ [Event.addRef ep],
        allocOk := s.allocOk, crashed := s.crashed } ha
    refine ⟨?_, h2, ?_⟩
    · rw [h1]
      show incAt ep s.refcount ep + (n : Int) = s.refcount ep + ((n : Int) + 1)
      simp [incAt]
      omega
    · rw [h3, List.replicate_succ]

/-- Completing one bound batch (finish or abort) decrements the
reference count at its endpoint by one and preserves the allocation
oracle. -/
theorem completeOne_refcount (bus : BusOps) (c : Bool) (b : Batch) (s : St)
    (ep : Nat) (hep : b.ep = some ep) :
    (completeOne bus c b s).refcount ep = s.refcount ep - 1 := by
  cases c with
  | true =>
    simp [completeOne, finish_eq bus b s ep hep, decAt]
  | false =>
    have hep2 : ({ b with error := EAGAIN } : Batch).ep = some ep := hep
    simp [completeOne, abort_eq,
      finish_eq bus { b with error := EAGAIN } s ep hep2, decAt]

/-- Completing a list of batches all bound to `ep`, one per choice,
decrements the reference count at `ep` by the number of choices. -/
theorem completeBatches_replicate (bus : BusOps) (ep : Nat) :
    ∀ (cs : List Bool) (s : St),
      (completeBatches bus cs
          (List.replicate cs.length (some { zeroBatch with ep := some ep }))
          s).refcount ep =
        s.refcount ep - cs.length := by
  intro cs
  induction cs with
  | nil =>
    intro s
    simp [completeBatches]
  | cons c cs ih =>
    intro s
    simp only [List.length_cons, List.replicate_succ, completeBatches]
    rw [ih]
    rw [completeOne_refcount bus c { zeroBatch with ep := some ep } s ep rfl]
    push_cast
    ring

/-! Claim theorems. -/

/-- Claim C1: for every batch with a registered completion callback,
`finish` invokes the callback exactly once, with (context, error
outcome, transferred bytes), strictly before the single `destroy` call;
a nonzero callback status produces exactly one warning; and apart from
that warning the result of `finish` (reference counts, the rest of the
trace, the crash flag) is the same as for a callback reporting status 0,
and `destroy` runs exactly once regardless. -/
theorem finish_callback_once_then_destroy (bus : BusOps) (b : Batch) (s : St)
    (ep : Nat) (cb : Nat → Int → Nat → Int)
    (hep : b.ep = some ep) (hcb : b.on_complete = some cb) :
    (newEvents s (usb_transfer_batch_finish bus b s)).filter
        (fun e => isCallbackEvt e || isDestroyLog e) =
      [Event.callbackEvt b.on_complete_data b.error b.transfered_size,
        if bus.batch_destroy then Event.debugDestroying else Event.debugDisposing] ∧
    (newEvents s (usb_transfer_batch_finish bus b s)).filter isWarning =
      (if cb b.on_complete_data b.error b.transfered_size = 0 then []
       else [Event.warning]) ∧
    (usb_transfer_batch_finish bus b s).refcount =
      (usb_transfer_batch_finish bus { b with on_complete := some cbZero } s).refcount ∧
    ((usb_transfer_batch_finish bus b s).events.filter fun e => !(isWarning e)) =
      ((usb_transfer_batch_finish bus
          { b with on_complete := some cbZero } s).events.filter
        fun e => !(isWarning e)) ∧
    (usb_transfer_batch_finish bus b s).crashed = s.crashed := by
  have hep2 : ({ b with on_complete := some cbZero } : Batch).ep = some ep := hep
  rw [finish_eq bus b s ep hep,
    finish_eq bus { b with on_complete := some cbZero } s ep hep2]
  rw [newEvents_of_append s _ _ rfl]
  by_cases h0 : cb b.on_complete_data b.error b.transfered_size = 0 <;>
    cases hbd : bus.batch_destroy <;>
    simp [finishTrail, callbackTrail, destroyTrail, hcb, h0, hbd, cbZero,
      isCallbackEvt, isDestroyLog, isWarning, List.filter_append]

/-- Witness for C1 on a concrete bus, batch and state: the failing
callback `cbOne` is recorded exactly once with context 7, error 0 and
size 3, the single destroy log follows it, one warning is emitted, and
the result agrees with the status-0 run everywhere else. -/
theorem finish_callback_once_then_destroy_witness :
    (newEvents st0 (usb_transfer_batch_finish genBus batchW st0)).filter
        (fun e => isCallbackEvt e || isDestroyLog e) =
      [Event.callbackEvt 7 0 3,
        if genBus.batch_destroy then Event.debugDestroying else Event.debugDisposing] ∧
    (newEvents st0 (usb_transfer_batch_finish genBus batchW st0)).filter isWarning =
      (if cbOne 7 0 3 = 0 then [] else [Event.warning]) ∧
    (usb_transfer_batch_finish genBus batchW st0).refcount =
      (usb_transfer_batch_finish genBus
        { batchW with on_complete := some cbZero } st0).refcount ∧
    ((usb_transfer_batch_finish genBus batchW st0).events.filter
        fun e => !(isWarning e)) =
      ((usb_transfer_batch_finish genBus
          { batchW with on_complete := some cbZero } st0).events.filter
        fun e => !(isWarning e)) ∧
    (usb_transfer_batch_finish genBus batchW st0).crashed = st0.crashed :=
  finish_callback_once_then_destroy genBus batchW st0 0 cbOne rfl rfl

/-- Claim C9: for every batch with no registered callback, `finish`
invokes no callback at all and still destroys the batch exactly once,
releasing the endpoint reference. -/
theorem finish_no_callback_still_destroys (bus : BusOps) (b : Batch) (s : St)
    (ep : Nat) (hep : b.ep = some ep) (hcb : b.on_complete = none) :
    (newEvents s (usb_transfer_batch_finish bus b s)).filter isCallbackEvt = [] ∧
    (newEvents s (usb_transfer_batch_finish bus b s)).filter isDestroyLog =
      [if bus.batch_destroy then Event.debugDestroying else Event.debugDisposing] ∧
    (newEvents s (usb_transfer_batch_finish bus b s)).filter isDelRef =
      [Event.delRef ep] ∧
    (usb_transfer_batch_finish bus b s).refcount ep = s.refcount ep - 1 := by
  rw [finish_eq bus b s ep hep]
  rw [newEvents_of_append s _ _ rfl]
  cases hbd : bus.batch_destroy <;>
    simp [finishTrail, callbackTrail, destroyTrail, hcb, hbd, isCallbackEvt,
      isDestroyLog, isDelRef, decAt, List.filter_append]

/-- Witness for C9: finishing the callback-free batch on the generic bus
records no callback, one disposal and one reference release, and drops
endpoint 0's count from 1 to 0. -/
theorem finish_no_callback_still_destroys_witness :
    (newEvents st0 (usb_transfer_batch_finish genBus batchNoCb st0)).filter
        isCallbackEvt = [] ∧
    (newEvents st0 (usb_transfer_batch_finish genBus batchNoCb st0)).filter
        isDestroyLog =
      [if genBus.batch_destroy then Event.debugDestroying else Event.debugDisposing] ∧
    (newEvents st0 (usb_transfer_batch_finish genBus batchNoCb st0)).filter
        isDelRef = [Event.delRef 0] ∧
    (usb_transfer_batch_finish genBus batchNoCb st0).refcount 0 =
      st0.refcount 0 - 1 :=
  finish_no_callback_still_destroys genBus batchNoCb st0 0 rfl rfl

/-- Claim C8: for every bound batch, `destroy` performs exactly one
`del_ref`, on the batch's own endpoint, decrementing that endpoint's
count by one and touching no other endpoint's count, and then performs
exactly one memory release — the bus's `batch_destroy` override when
present, else `free` — after the reference release. -/
theorem destroy_single_delref_then_release (bus : BusOps) (b : Batch) (s : St)
    (ep : Nat) (hep : b.ep = some ep) :
    (newEvents s (usb_transfer_batch_destroy bus b s)).filter
        (fun e => isDelRef e || isRelease e) =
      [Event.delRef ep,
        if bus.batch_destroy then Event.batchDestroyOp else Event.freeBatch] ∧
    (newEvents s (usb_transfer_batch_destroy bus b s)).filter isDelRef =
      [Event.delRef ep] ∧
    (usb_transfer_batch_destroy bus b s).refcount ep = s.refcount ep - 1 ∧
    (∀ e2, e2 ≠ ep →
      (usb_transfer_batch_destroy bus b s).refcount e2 = s.refcount e2) := by
  rw [destroy_eq bus b s ep hep]
  rw [newEvents_of_append s _ _ rfl]
  cases hbd : bus.batch_destroy <;>
    simp [destroyTrail, hbd, isDelRef, isRelease, decAt, List.filter_append]

/-- Witness for C8 on the generic bus: destroying the concrete batch
releases exactly one reference on endpoint 0 (count 1 to 0), leaves
endpoint 1's count alone, and then frees the batch. -/
theorem destroy_single_delref_then_release_witness :
    (newEvents st0 (usb_transfer_batch_destroy genBus batchNoCb st0)).filter
        (fun e => isDelRef e || isRelease e) =
      [Event.delRef 0,
        if genBus.batch_destroy then Event.batchDestroyOp else Event.freeBatch] ∧
    (newEvents st0 (usb_transfer_batch_destroy genBus batchNoCb st0)).filter
        isDelRef = [Event.delRef 0] ∧
    (usb_transfer_batch_destroy genBus batchNoCb st0).refcount 0 =
      st0.refcount 0 - 1 ∧
    (usb_transfer_batch_destroy genBus batchNoCb st0).refcount 1 =
      st0.refcount 1 :=
  ⟨(destroy_single_delref_then_release genBus batchNoCb st0 0 rfl).1,
   (destroy_single_delref_then_release genBus batchNoCb st0 0 rfl).2.1,
   (destroy_single_delref_then_release genBus batchNoCb st0 0 rfl).2.2.1,
   (destroy_single_delref_then_release genBus batchNoCb st0 0 rfl).2.2.2 1
     (by decide)⟩

/-- Claim C10: `abort` changes nothing but the batch's error field
before delegating: the run of `abort` on `b` is exactly the run of
`finish` on `b` with its error overwritten by `EAGAIN`, and that
overwritten batch agrees with `b` on the endpoint, the transferred size,
the toggle-reset mode, the target, the callback and its context. -/
theorem abort_frame_only_error (bus : BusOps) (b : Batch) (s : St) :
    usb_transfer_batch_abort bus b s =
      usb_transfer_batch_finish bus { b with error := EAGAIN } s ∧
    ({ b with error := EAGAIN } : Batch).ep = b.ep ∧
    ({ b with error := EAGAIN } : Batch).transfered_size = b.transfered_size ∧
    ({ b with error := EAGAIN } : Batch).toggle_reset_mode = b.toggle_reset_mode ∧
    ({ b with error := EAGAIN } : Batch).target = b.target ∧
    ({ b with error := EAGAIN } : Batch).on_complete = b.on_complete ∧
    ({ b with error := EAGAIN } : Batch).on_complete_data = b.on_complete_data ∧
    ({ b with error := EAGAIN } : Batch).error = EAGAIN :=
  ⟨abort_eq bus b s, rfl, rfl, rfl, rfl, rfl, rfl, rfl⟩

/-- Claim C2: on a bus without a `batch_create` override and with
allocation available, any sequence of N batch creations on an endpoint
followed by N completions of those batches — each one a `finish` or an
`abort` — leaves the endpoint's reference count exactly where it
started. -/
theorem endpoint_refcount_balance (bus : BusOps) (hbc : bus.batch_create = none)
    (ep : Nat) (choices : List Bool) (s : St) (ha : s.allocOk = true) :
    (refBalanceRun bus ep choices s).refcount ep = s.refcount ep := by
  obtain ⟨h1, h2, h3⟩ := createBatches_generic bus ep hbc choices.length s ha
  rw [refBalanceRun, h3, completeBatches_replicate bus ep choices, h1]
  ring

/-- Witness for C2, matching the spec's Scenario B shape: three batches
created on endpoint 0 (count 1 to 4), completed by finish, abort,
finish; the count returns to 1. -/
theorem endpoint_refcount_balance_witness :
    (refBalanceRun genBus 0 [true, false, true] st0).refcount 0 =
      st0.refcount 0 :=
  endpoint_refcount_balance genBus rfl 0 [true, false, true] st0 rfl

/-- Counterexample to claim C3: the claim says `abort` yields
transferred size 0 as observed by the callback regardless of prior batch
state. Aborting `batchPartial` — a batch whose transferred size is 5 —
makes the callback observe size 5, not 0: the single callback invocation
in the trace carries size 5, and the trace is not the one the claim
demands. -/
theorem abort_callback_observes_prior_size :
    (newEvents st0 (usb_transfer_batch_abort genBus batchPartial st0)).filter
        isCallbackEvt = [Event.callbackEvt 0 EAGAIN 5] ∧
    (newEvents st0 (usb_transfer_batch_abort genBus batchPartial st0)).filter
        isCallbackEvt ≠ [Event.callbackEvt 0 EAGAIN 0] := by
  decide

/-- Claim C3 as amended: for every bound batch with a registered
callback, `abort` overwrites the outcome with the cancellation error
`EAGAIN` (discarding any previously recorded error) and calls `finish`,
whose single callback invocation observes error `EAGAIN` and the batch's
transferred-size field as it was — `abort` does not zero it. -/
theorem abort_overwrites_error_passes_size (bus : BusOps) (b : Batch) (s : St)
    (ep : Nat) (cb : Nat → Int → Nat → Int)
    (hep : b.ep = some ep) (hcb : b.on_complete = some cb) :
    (newEvents s (usb_transfer_batch_abort bus b s)).filter isCallbackEvt =
      [Event.callbackEvt b.on_complete_data EAGAIN b.transfered_size] := by
  have hep2 : ({ b with error := EAGAIN } : Batch).ep = some ep := hep
  rw [abort_eq, finish_eq bus { b with error := EAGAIN } s ep hep2]
  rw [newEvents_of_append s _ _ rfl]
  by_cases h0 : cb b.on_complete_data EAGAIN b.transfered_size = 0 <;>
    cases hbd : bus.batch_destroy <;>
    simp [finishTrail, callbackTrail, destroyTrail, hcb, h0, hbd, isCallbackEvt,
      List.filter_append]

/-- Witness for the amended C3: aborting the concrete partial batch
records exactly one callback invocation, with error `EAGAIN` and the
prior size 5. -/
theorem abort_overwrites_error_passes_size_witness :
    (newEvents st0 (usb_transfer_batch_abort genBus batchPartial st0)).filter
        isCallbackEvt = [Event.callbackEvt 0 EAGAIN 5] :=
  abort_overwrites_error_passes_size genBus batchPartial st0 0 cbZero rfl rfl

/-- Counterexample to claim C4: the claim says `reset_toggle` is a no-op
only when the batch carries no error and the mode is `RESET_NONE`, and
otherwise delegates to the bus. `batchStall` carries an error (1) and
mode `RESET_ENDPOINT`, so the claim demands a delegation; the code
returns `EOK` immediately and invokes nothing — the state is unchanged
and the trace holds no bus `reset_toggle` invocation. -/
theorem reset_toggle_error_batch_noop :
    (usb_transfer_batch_reset_toggle batchStall st0).1.events = [] ∧
    (usb_transfer_batch_reset_toggle batchStall st0).2 = EOK := by
  decide

/-- Claim C4 as amended: `reset_toggle` is a no-op (state untouched,
`EOK` returned, bus not invoked) whenever the batch's outcome carries an
error or its mode is `RESET_NONE`; only for an error-free batch with a
mode other than `RESET_NONE` does it delegate to the bus's
`reset_toggle`, passing the batch's device target and its mode — in
particular with mode `RESET_ALL` the whole device target is passed. -/
theorem reset_toggle_success_only_delegates (b : Batch) (s : St) (ep : Nat) :
    ((b.error ≠ EOK ∨ b.toggle_reset_mode = ToggleResetMode.RESET_NONE) →
      usb_transfer_batch_reset_toggle b s = (s, EOK)) ∧
    (b.error = EOK → b.toggle_reset_mode ≠ ToggleResetMode.RESET_NONE →
      b.ep = some ep →
      (usb_transfer_batch_reset_toggle b s).2 = EOK ∧
      (newEvents s (usb_transfer_batch_reset_toggle b s).1).filter
          isBusResetToggle =
        [Event.busResetToggleOp b.target b.toggle_reset_mode]) := by
  constructor
  · intro h
    unfold usb_transfer_batch_reset_toggle
    rw [if_pos h]
  · intro h1 h2 hep
    have hcond : ¬(b.error ≠ EOK ∨ b.toggle_reset_mode = ToggleResetMode.RESET_NONE) := by
      push_neg
      exact ⟨by simp [h1], h2⟩
    unfold usb_transfer_batch_reset_toggle
    rw [if_neg hcond, hep]
    refine ⟨rfl, ?_⟩
    rw [newEvents_of_append s _
      [Event.debugResetsToggle (b.toggle_reset_mode = ToggleResetMode.RESET_ALL),
        Event.busResetToggleOp b.target b.toggle_reset_mode]
      (by simp [bus_reset_toggle, emit])]
    simp [isBusResetToggle]

/-- Witness for the amended C4: the error-free `RESET_NONE` batch is a
no-op, and the error-free `RESET_ALL` batch produces exactly one bus
`reset_toggle` invocation carrying the device target (1, 2) and mode
`RESET_ALL`. -/
theorem reset_toggle_success_only_delegates_witness :
    usb_transfer_batch_reset_toggle batchNoToggle st0 = (st0, EOK) ∧
    (usb_transfer_batch_reset_toggle batchAllToggle st0).2 = EOK ∧
    (newEvents st0 (usb_transfer_batch_reset_toggle batchAllToggle st0).1).filter
        isBusResetToggle =
      [Event.busResetToggleOp ⟨1, 2⟩ ToggleResetMode.RESET_ALL] :=
  ⟨(reset_toggle_success_only_delegates batchNoToggle st0 0).1 (Or.inr rfl),
   ((reset_toggle_success_only_delegates batchAllToggle st0 0).2 rfl
     (by decide) rfl).1,
   ((reset_toggle_success_only_delegates batchAllToggle st0 0).2 rfl
     (by decide) rfl).2⟩

/-- Claim C5 (the code at the failing input): on the generic path with
allocation failing, `create` returns no batch but — contrary to the
claim — an endpoint reference is left acquired and NULL is dereferenced:
the C code never checks the result of `calloc` and hands NULL to `init`,
which calls `endpoint_add_ref` first and then stores through the NULL
batch pointer. -/
theorem create_alloc_failure_leaks_ref_and_crashes (bus : BusOps) (ep : Nat)
    (s : St) (hbc : bus.batch_create = none) (ha : s.allocOk = false) :
    (usb_transfer_batch_create bus ep s).2 = none ∧
    (usb_transfer_batch_create bus ep s).1.crashed = true ∧
    (usb_transfer_batch_create bus ep s).1.refcount ep = s.refcount ep + 1 := by
  simp [usb_transfer_batch_create, hbc, callocBatch, ha, usb_transfer_batch_init,
    endpoint_add_ref]

/-- Witness for C5's failing input: on the generic bus with `calloc`
failing, `create` yields no batch, the crash flag is set, and endpoint
0's reference count has still been raised from 1 to 2. -/
theorem create_alloc_failure_leaks_ref_and_crashes_witness :
    (usb_transfer_batch_create genBus 0 stNoAlloc).2 = none ∧
    (usb_transfer_batch_create genBus 0 stNoAlloc).1.crashed = true ∧
    (usb_transfer_batch_create genBus 0 stNoAlloc).1.refcount 0 =
      stNoAlloc.refcount 0 + 1 :=
  create_alloc_failure_leaks_ref_and_crashes genBus 0 stNoAlloc rfl rfl

/-- Counterexample to claim C6: the claim says `create` itself acquires
one endpoint reference via `add_ref` before delegating, also when a
`batch_create` override is present. On `noRefBus`, whose override
returns NULL without touching the state, `create` returns the starting
state unchanged: no `addRef` event was recorded and endpoint 0's count
is still 1, so no reference was acquired by `create` before or during
the delegation. -/
theorem create_override_acquires_no_ref :
    usb_transfer_batch_create noRefBus 0 st0 = (st0, none) ∧
    st0.refcount 0 = 1 ∧
    st0.events = [] :=
  ⟨rfl, rfl, rfl⟩

/-- Claim C6 as amended: `create` performs no `add_ref` of its own
before delegating. With a `batch_create` override present it hands the
call to the override unchanged (the override is responsible for the
reference, e.g. by calling `init`); on the generic path the single
`add_ref` happens inside `init` after allocation — and it is `init`
that acquires the reference, as the last conjunct states directly. -/
theorem create_delegates_ref_acquired_in_init (bus : BusOps) (ep : Nat) (s : St)
    (bc : Nat → St → St × Option Batch) :
    (bus.batch_create = some bc →
      usb_transfer_batch_create bus ep s = bc ep s) ∧
    (bus.batch_create = none → s.allocOk = true →
      (newEvents s (usb_transfer_batch_create bus ep s).1).filter isAddRef =
        [Event.addRef ep] ∧
      (usb_transfer_batch_create bus ep s).1.refcount ep = s.refcount ep + 1) ∧
    (usb_transfer_batch_init (some zeroBatch) ep s).1.refcount ep =
      s.refcount ep + 1 := by
  refine ⟨?_, ?_, ?_⟩
  · intro h
    simp [usb_transfer_batch_create, h]
  · intro hbc ha
    rw [create_generic_eq bus ep s hbc ha]
    rw [newEvents_of_append s _ _ rfl]
    constructor
    · simp [isAddRef]
    · simp [incAt]
  · simp [usb_transfer_batch_init, endpoint_add_ref]

/-- Witness for the amended C6: on `noRefBus` the create call is exactly
the override's result; on the generic bus the trace gains exactly one
`addRef` and the count rises by one; and `init` alone raises the count
by one. -/
theorem create_delegates_ref_acquired_in_init_witness :
    usb_transfer_batch_create noRefBus 1 st0 = (st0, none) ∧
    (newEvents st0 (usb_transfer_batch_create genBus 1 st0).1).filter isAddRef =
      [Event.addRef 1] ∧
    (usb_transfer_batch_create genBus 1 st0).1.refcount 1 = st0.refcount 1 + 1 ∧
    (usb_transfer_batch_init (some zeroBatch) 1 st0).1.refcount 1 =
      st0.refcount 1 + 1 :=
  ⟨(create_delegates_ref_acquired_in_init noRefBus 1 st0
      (fun _ s => (s, none))).1 rfl,
   ((create_delegates_ref_acquired_in_init genBus 1 st0
      (fun _ s => (s, none))).2.1 rfl rfl).1,
   ((create_delegates_ref_acquired_in_init genBus 1 st0
      (fun _ s => (s, none))).2.1 rfl rfl).2,
   (create_delegates_ref_acquired_in_init genBus 1 st0
      (fun _ s => (s, none))).2.2⟩

/-- Claim C7: without a `batch_create` override and with allocation
succeeding, `create` returns the zero-initialized batch with its
endpoint field set to the input endpoint, whose reference count is
afterwards exactly one greater than before the call, every other
endpoint's count being untouched. -/
theorem create_generic_returns_zero_batch (bus : BusOps) (ep : Nat) (s : St)
    (hbc : bus.batch_create = none) (ha : s.allocOk = true) :
    (usb_transfer_batch_create bus ep s).2 =
      some { zeroBatch with ep := some ep } ∧
    (usb_transfer_batch_create bus ep s).1.refcount ep = s.refcount ep + 1 ∧
    (∀ e2, e2 ≠ ep →
      (usb_transfer_batch_create bus ep s).1.refcount e2 = s.refcount e2) := by
  rw [create_generic_eq bus ep s hbc ha]
  refine ⟨rfl, by simp [incAt], ?_⟩
  intro e2 h
  simp [incAt, h]

/-- Witness for C7: creating on endpoint 0 of the generic bus from the
all-ones state yields the zero batch bound to endpoint 0, raises
endpoint 0's count from 1 to 2, and leaves endpoint 1's count at 1. -/
theorem create_generic_returns_zero_batch_witness :
    (usb_transfer_batch_create genBus 0 st0).2 =
      some { zeroBatch with ep := some 0 } ∧
    (usb_transfer_batch_create genBus 0 st0).1.refcount 0 = st0.refcount 0 + 1 ∧
    (usb_transfer_batch_create genBus 0 st0).1.refcount 1 = st0.refcount 1 :=
  ⟨(create_generic_returns_zero_batch genBus 0 st0 rfl rfl).1,
   (create_generic_returns_zero_batch genBus 0 st0 rfl rfl).2.1,
   (create_generic_returns_zero_batch genBus 0 st0 rfl rfl).2.2 1 (by decide)⟩
